import Mathlib

/-!
Verification of the emergency-incident backend core
(priority scoring, duplicate detection, and the merge/create pipeline),
shallowly embedded from the JavaScript source.

Conventions of the embedding:
* JavaScript numbers are modelled as exact rationals (`ℚ`); timestamps are
  epoch milliseconds (`ℤ`); `Math.round` is Mathlib's `round` (floor of
  `x + 1/2`, which is exactly JavaScript's rounding rule); `Math.floor` is
  `Int.floor`.
* Mongo documents are Lean structures; a store is a `List Incident` in
  retrieval order; Mongo string fields (severity, status, type) stay `String`.
* The haversine `calculateDistance` is transcendental, so the pipeline
  definitions abstract it as a parameter `dist : Location → Location → ℚ`;
  the function itself is embedded over `ℝ` at the end of the definitions
  for the algebraic claims about it.
* The external AI oracle is modelled by its returned data (a list of
  judgments); the code turns every oracle failure into the empty list.
* JavaScript `Array.prototype.sort` is stable; it is modelled by the
  stable insertion sort `sortByDesc` (extensionally equal to any stable
  descending sort).
-/

/-- A coordinate pair, as stored in `location.lat` / `location.lng`. -/
structure Location where
  lat : ℚ
  lng : ℚ
deriving DecidableEq, Repr

/-- An incident document (src/unnamed/part_001 Mongoose schema): the fields
the core pipeline reads or writes.  `upvotes` is the corroboration count. -/
structure Incident where
  id : ℕ
  type : String
  description : String
  location : Location
  severity : String
  status : String
  upvotes : ℤ
  verified : Bool
  timestamp : ℤ
deriving DecidableEq, Repr

/-- An incoming report after field extraction (src/unnamed/part_000, POST /report). -/
structure Report where
  type : String
  description : String
  location : Location
deriving DecidableEq, Repr

/-- Embeds `calculatePriority` from src/utils/priorityScorer.js lines 12-74.
The JS function reads `Date.now()` and calls the haversine
`calculateDistance`; both are passed explicitly (`now`, `dist`).
Severity and type lookups follow the JS object tables with their `|| 40`
and `|| 0` fallbacks; `Math.round` then clamping to [0, 200] is the final
line of the source. -/
def calculatePriority (dist : Location → Location → ℚ) (now : ℤ)
    (incident : Incident) (responderLocation : Option Location) : ℤ :=
  let severityScore : ℚ :=
    if incident.severity = "Critical" then 100
    else if incident.severity = "High" then 70
    else if incident.severity = "Medium" then 40
    else if incident.severity = "Low" then 10
    else 40
  let ageInMinutes : ℚ := ((now : ℚ) - (incident.timestamp : ℚ)) / (1000 * 60)
  let timeScore : ℚ := max 0 (30 - (⌊ageInMinutes / 10⌋ : ℚ) * 5)
  let upvoteScore : ℚ := min ((incident.upvotes : ℚ) * 2) 20
  let afterUpvotes : ℚ := severityScore + timeScore + upvoteScore
  let afterDistance : ℚ :=
    match responderLocation with
    | some r => afterUpvotes - min (dist r incident.location / 1000 * 2) 30
    | none => afterUpvotes
  let afterVerified : ℚ := if incident.verified then afterDistance + 15 else afterDistance
  let afterStatus : ℚ :=
    if incident.status = "In Progress" then afterVerified - 20
    else if incident.status = "Resolved" then afterVerified - 50
    else afterVerified
  let typeScore : ℚ :=
    if incident.type = "Medical" then 10
    else if incident.type = "Fire" then 10
    else if incident.type = "Crime" then 5
    else if incident.type = "Accident" then 5
    else 0
  max 0 (min 200 (round (afterStatus + typeScore)))

/-- Embeds `getPriorityLevel` from src/utils/priorityScorer.js lines 114-119. -/
def getPriorityLevel (score : ℤ) : String :=
  if score ≥ 120 then "CRITICAL"
  else if score ≥ 90 then "HIGH"
  else if score ≥ 60 then "MEDIUM"
  else "LOW"

/-- The spec's closed-form priority formula (spec §4.5, restated in the claim):
named additive terms, summed, rounded, clamped to [0, 200].  Written from the
spec's words, to be compared with `calculatePriority`. -/
def priorityFormula (dist : Location → Location → ℚ) (now : ℤ)
    (incident : Incident) (responderLocation : Option Location) : ℤ :=
  let severityBase : ℚ :=
    if incident.severity = "Critical" then 100
    else if incident.severity = "High" then 70
    else if incident.severity = "Medium" then 40
    else if incident.severity = "Low" then 10
    else 40
  let ageMinutes : ℚ := ((now : ℚ) - (incident.timestamp : ℚ)) / 60000
  let timeDecay : ℚ := max 0 (30 - (⌊ageMinutes / 10⌋ : ℚ) * 5)
  let corroborationBoost : ℚ := min ((incident.upvotes : ℚ) * 2) 20
  let distancePenalty : ℚ :=
    match responderLocation with
    | some r => min (dist r incident.location / 1000 * 2) 30
    | none => 0
  let verificationBonus : ℚ := if incident.verified then 15 else 0
  let statusAdjustment : ℚ :=
    if incident.status = "In Progress" then -20
    else if incident.status = "Resolved" then -50
    else 0
  let categoryBonus : ℚ :=
    if incident.type = "Medical" ∨ incident.type = "Fire" then 10
    else if incident.type = "Crime" ∨ incident.type = "Accident" then 5
    else 0
  max 0 (min 200 (round (severityBase + timeDecay + corroborationBoost - distancePenalty +
    verificationBonus + statusAdjustment + categoryBonus)))

/-- The spec's worked example: severity Critical, 25 minutes old, corroboration 3,
verified, status Reported, category Medical. -/
def exampleIncident : Incident :=
  { id := 1, type := "Medical", description := "collapsed person",
    location := { lat := 10, lng := 20 }, severity := "Critical",
    status := "Reported", upvotes := 3, verified := true, timestamp := 0 }

/-- Insert an element into a list sorted by (weakly) descending `key`, after
every element of strictly greater key and before the first element of
smaller-or-equal key.  Inserting earlier-arriving elements this way yields a
stable descending sort, which is how JavaScript's stable
`sort((a, b) => b.k - a.k)` behaves. -/
def insertDesc {α : Type} (key : α → ℤ) (x : α) : List α → List α
  | [] => [x]
  | y :: ys => if key x < key y then y :: insertDesc key x ys else x :: y :: ys

/-- Stable insertion sort by descending `key`; models the stable JavaScript
`Array.prototype.sort` with comparator `(a, b) => key b - key a`. -/
def sortByDesc {α : Type} (key : α → ℤ) : List α → List α
  | [] => []
  | x :: xs => insertDesc key x (sortByDesc key xs)

/-- One entry of the GET /check-duplicates response list
(src/unnamed/part_000 lines 417-448); only the fields the claims mention are
kept (`incident` carries all the copied document fields). -/
structure DupEntry where
  incident : Incident
  confidence : ℤ
  distance : ℤ
  aiReason : Option String
deriving DecidableEq, Repr

/-- The loose-tier candidate window of GET /check-duplicates
(src/unnamed/part_000 lines 392-407): the Mongo query keeps incidents from
the last two hours, with status not Resolved/Closed, within 500 meters of
the query point.  The geospatial `$nearSphere` bound is modelled with the
same abstract distance function as the in-route haversine. -/
def looseWindow (dist : Location → Location → ℚ) (now : ℤ) (qloc : Location)
    (db : List Incident) : List Incident :=
  db.filter (fun inc =>
    decide (now - 2 * 60 * 60 * 1000 ≤ inc.timestamp) &&
    !(decide (inc.status = "Resolved")) && !(decide (inc.status = "Closed")) &&
    decide (dist qloc inc.location ≤ 500))

/-- One mapped response entry of GET /check-duplicates
(src/unnamed/part_000 lines 417-446): distance score, time score, type
bonus, heuristic confidence `Math.round((d + t + b) / 2.2)` capped by
`Math.min(100, ·)`. -/
def mkDupEntry (dist : Location → Location → ℚ) (now : ℤ) (qtype : String)
    (qloc : Location) (inc : Incident) : DupEntry :=
  let distance : ℚ := dist qloc inc.location
  let distanceScore : ℚ := max 0 (100 - distance / 5)
  let timeDiff : ℚ := (now : ℚ) - (inc.timestamp : ℚ)
  let timeScore : ℚ := max 0 (100 - timeDiff / (2 * 60 * 60 * 10))
  let typeBonus : ℚ := if inc.type = qtype then 20 else 0
  let confidence : ℤ := round ((distanceScore + timeScore + typeBonus) / 2.2)
  { incident := inc, confidence := min 100 confidence,
    distance := round distance, aiReason := none }

/-- The heuristic duplicate list of GET /check-duplicates
(src/unnamed/part_000 lines 417-448): map candidates to scored entries,
keep confidence > 40, sort by descending confidence. -/
def heuristicDuplicates (dist : Location → Location → ℚ) (now : ℤ)
    (db : List Incident) (qtype : String) (qloc : Location) : List DupEntry :=
  sortByDesc (fun e => e.confidence)
    (((looseWindow dist now qloc db).map (mkDupEntry dist now qtype qloc)).filter
      (fun e => decide (40 < e.confidence)))

/-- One judgment returned by the AI oracle through `detectDuplicates`
(src/utils/ai.js lines 149-158), already mapped back to an incident id.
`detectDuplicates` returns `[]` whenever the oracle call fails, times out,
or its response cannot be parsed (the catch block and the no-match branch). -/
structure AiDup where
  incidentId : ℕ
  confidence : ℤ
  reason : String
deriving DecidableEq, Repr

/-- The confidence-merging step of GET /check-duplicates
(src/unnamed/part_000 lines 457-464): when the oracle produced a judgment
for this entry's incident, average the two confidences and attach the
rationale; otherwise leave the entry unchanged. -/
def fuseOne (oracle : List AiDup) (d : DupEntry) : DupEntry :=
  match oracle.find? (fun ai => ai.incidentId == d.incident.id) with
  | some ai =>
    { d with confidence := round (((d.confidence : ℚ) + (ai.confidence : ℚ)) / 2),
             aiReason := some ai.reason }
  | none => d

/-- The full GET /check-duplicates response computation
(src/unnamed/part_000 lines 409-467): heuristic list, then—only when a
description was supplied and the list is non-empty—oracle fusion and a
re-sort.  `oracle` is the value returned by `detectDuplicates`. -/
def checkDuplicatesRoute (dist : Location → Location → ℚ) (now : ℤ)
    (db : List Incident) (qtype : String) (qloc : Location)
    (description : String) (oracle : List AiDup) : List DupEntry :=
  let dups := heuristicDuplicates dist now db qtype qloc
  if description ≠ "" ∧ dups ≠ [] then
    sortByDesc (fun e => e.confidence) (dups.map (fuseOne oracle))
  else dups

/-- The active-incident query of GET /priority-queue
(src/unnamed/part_000 lines 494-496): status not in [Resolved, Closed]. -/
def activeIncidents (db : List Incident) : List Incident :=
  db.filter (fun inc =>
    !(decide (inc.status = "Resolved")) && !(decide (inc.status = "Closed")))

/-- Embeds `sortIncidentsByPriority` from src/utils/priorityScorer.js
lines 100-107: attach a priority to a copy of each incident, then stable-sort
descending by priority. -/
def sortIncidentsByPriority (dist : Location → Location → ℚ) (now : ℤ)
    (incidents : List Incident) (responderLocation : Option Location) :
    List (Incident × ℤ) :=
  sortByDesc (fun p => p.2)
    (incidents.map (fun inc => (inc, calculatePriority dist now inc responderLocation)))

/-- One entry of the GET /priority-queue response: the (unchanged) incident,
its computed priority, and the derived label. -/
structure QueueEntry where
  incident : Incident
  priority : ℤ
  priorityLevel : String
deriving DecidableEq, Repr

/-- Embeds GET /priority-queue (src/unnamed/part_000 lines 489-509):
filter out terminal incidents, sort by priority, truncate to the cap,
attach labels. -/
def priorityQueue (dist : Location → Location → ℚ) (now : ℤ)
    (db : List Incident) (responderLocation : Option Location) (lim : ℕ) :
    List QueueEntry :=
  ((sortIncidentsByPriority dist now (activeIncidents db) responderLocation).take lim).map
    (fun p => { incident := p.1, priority := p.2, priorityLevel := getPriorityLevel p.2 })

/-- The tight-tier candidate query of POST /report
(src/unnamed/part_000 lines 94-98): same type, last 30 minutes.
It does not filter by status. -/
def tightCandidates (now : ℤ) (db : List Incident) (t : String) : List Incident :=
  db.filter (fun inc =>
    decide (inc.type = t) && decide (now - 30 * 60 * 1000 ≤ inc.timestamp))

/-- The combined predicate "is a tight-tier candidate and lies within 100
meters of the report": the first db element satisfying it is exactly the
document the route's for-loop selects and mutates. -/
def tightMatchPred (dist : Location → Location → ℚ) (now : ℤ) (t : String)
    (rloc : Location) (inc : Incident) : Bool :=
  decide (inc.type = t) && decide (now - 30 * 60 * 1000 ≤ inc.timestamp) &&
    decide (dist rloc inc.location ≤ 100)

/-- Increment the upvote count of the first list element satisfying `p`,
leaving every other element untouched: the list-of-values rendering of the
route's in-place `matchedIncident.upvotes += 1; await matchedIncident.save()`
(src/unnamed/part_000 lines 116-118). -/
def incrementFirst (p : Incident → Bool) : List Incident → List Incident
  | [] => []
  | x :: xs =>
    if p x then { x with upvotes := x.upvotes + 1 } :: xs else x :: incrementFirst p xs

/-- The document created by POST /report when no tight match exists
(src/unnamed/part_000 lines 192-210): corroboration count 1, status
Reported, not verified, timestamped now; severity comes from the AI
analysis, the identity from the store. -/
def newIncidentRecord (r : Report) (sev : String) (now : ℤ) (freshId : ℕ) : Incident :=
  { id := freshId, type := r.type, description := r.description,
    location := r.location, severity := sev, status := "Reported",
    upvotes := 1, verified := false, timestamp := now }

/-- Outcome of the merge/create core of POST /report: the response outcome
string, the store after the request, and the incident sent back. -/
structure ProcessResult where
  outcome : String
  db : List Incident
  incident : Option Incident
deriving DecidableEq, Repr

/-- The merge/create core of POST /report (src/unnamed/part_000 lines
93-234): query tight-tier candidates, scan them in lookup order for the
first within 100 meters; on a match increment its upvotes in place and
answer `merged`; otherwise append a fresh record and answer `created`.
`sev` is the severity the AI analysis assigned to the new record and
`freshId` the identity the store assigns. -/
def processReport (dist : Location → Location → ℚ) (now : ℤ)
    (db : List Incident) (r : Report) (sev : String) (freshId : ℕ) : ProcessResult :=
  let cands := tightCandidates now db r.type
  match cands.find? (fun inc => decide (dist r.location inc.location ≤ 100)) with
  | some m =>
    { outcome := "merged",
      db := incrementFirst (tightMatchPred dist now r.type r.location) db,
      incident := some { m with upvotes := m.upvotes + 1 } }
  | none =>
    { outcome := "created",
      db := db ++ [newIncidentRecord r sev now freshId],
      incident := some (newIncidentRecord r sev now freshId) }

/-- A request-body location before validation: either coordinate may be
absent (`undefined` in JS). -/
structure RawLocation where
  lat : Option ℚ
  lng : Option ℚ
deriving DecidableEq, Repr

/-- A request body before validation: each field may be absent. -/
structure RawReport where
  type : Option String
  description : Option String
  location : Option RawLocation
deriving DecidableEq, Repr

/-- JavaScript truthiness of a possibly-absent string: absent and `""` are
falsy. -/
def truthyStr : Option String → Bool
  | none => false
  | some s => !(s == "")

/-- JavaScript truthiness of a possibly-absent number: absent and `0` are
falsy (`NaN`, also falsy, has no rational counterpart). -/
def truthyNum : Option ℚ → Bool
  | none => false
  | some q => !(q == 0)

/-- The required-field check of POST /report (src/unnamed/part_000 line 67):
`!type || !description || !location || !location.lat || !location.lng`
rejects; this is the complement, with JS truthiness semantics. -/
def hasRequiredFields (raw : RawReport) : Bool :=
  truthyStr raw.type && truthyStr raw.description &&
    (match raw.location with
     | none => false
     | some loc => truthyNum loc.lat && truthyNum loc.lng)

/-- The accepted incident types of POST /report (src/unnamed/part_000 line 74). -/
def validTypes : List String :=
  ["Fire", "Accident", "Medical", "Crime", "Infrastructure", "Natural", "Other"]

/-- A POST /report response together with the store after the request. -/
structure RouteResult where
  httpStatus : ℕ
  error : Option String
  outcome : Option String
  db : List Incident
  incident : Option Incident
  advisories : List AiDup
deriving DecidableEq, Repr

/-- The POST /report handler (src/unnamed/part_000 lines 56-234): field
validation, type validation, then the merge/create core.  `oracle` is the
advisory duplicate list `detectDuplicates` produced (empty on any oracle
failure); the merged response omits it, the created response attaches it. -/
def reportRoute (dist : Location → Location → ℚ) (now : ℤ) (db : List Incident)
    (raw : RawReport) (sev : String) (freshId : ℕ) (oracle : List AiDup) : RouteResult :=
  if hasRequiredFields raw = false then
    { httpStatus := 400,
      error := some "Missing required fields: type, description, location (lat, lng)",
      outcome := none, db := db, incident := none, advisories := [] }
  else if validTypes.contains (raw.type.getD "") = false then
    { httpStatus := 400, error := some "Invalid type", outcome := none,
      db := db, incident := none, advisories := [] }
  else
    let loc : Location :=
      match raw.location with
      | some l => { lat := l.lat.getD 0, lng := l.lng.getD 0 }
      | none => { lat := 0, lng := 0 }
    let r : Report :=
      { type := raw.type.getD "", description := raw.description.getD "", location := loc }
    let res := processReport dist now db r sev freshId
    if res.outcome = "merged" then
      { httpStatus := 200, error := none, outcome := some "merged",
        db := res.db, incident := res.incident, advisories := [] }
    else
      { httpStatus := 201, error := none, outcome := some "created",
        db := res.db, incident := res.incident, advisories := oracle }

/-- JavaScript's `Math.atan2(y, x)`, by its specified case analysis. -/
noncomputable def atan2 (y x : ℝ) : ℝ :=
  if 0 < x then Real.arctan (y / x)
  else if x < 0 ∧ 0 ≤ y then Real.arctan (y / x) + Real.pi
  else if x < 0 ∧ y < 0 then Real.arctan (y / x) - Real.pi
  else if x = 0 ∧ 0 < y then Real.pi / 2
  else if x = 0 ∧ y < 0 then -(Real.pi / 2)
  else 0

/-- Embeds `calculateDistance` from src/utils/priorityScorer.js lines 79-92
(the same haversine is repeated in src/utils/ai.js and src/unnamed/part_000):
R = 6371e3 meters, degree-to-radian conversions, and
`c = 2 * atan2(sqrt a, sqrt (1 - a))`, over exact reals. -/
noncomputable def calculateDistance (lat1 lng1 lat2 lng2 : ℝ) : ℝ :=
  let R : ℝ := 6371000
  let phi1 : ℝ := lat1 * Real.pi / 180
  let phi2 : ℝ := lat2 * Real.pi / 180
  let dphi : ℝ := (lat2 - lat1) * Real.pi / 180
  let dlam : ℝ := (lng2 - lng1) * Real.pi / 180
  let a : ℝ := Real.sin (dphi / 2) * Real.sin (dphi / 2) +
    Real.cos phi1 * Real.cos phi2 * (Real.sin (dlam / 2) * Real.sin (dlam / 2))
  let c : ℝ := 2 * atan2 (Real.sqrt a) (Real.sqrt (1 - a))
  R * c

/-- A nearby active incident of a category different from the query's,
used to exercise the loose-tier window. -/
def fireIncident : Incident :=
  { id := 7, type := "Fire", description := "warehouse fire",
    location := { lat := 10, lng := 20 }, severity := "High",
    status := "Reported", upvotes := 1, verified := false, timestamp := 0 }

/-- A terminal (Resolved) incident used to exercise the tight-tier merge. -/
def resolvedIncident : Incident :=
  { id := 3, type := "Fire", description := "kitchen fire",
    location := { lat := 10, lng := 20 }, severity := "High",
    status := "Resolved", upvotes := 2, verified := true, timestamp := 0 }

/-- A same-category report used to exercise the tight-tier merge. -/
def fireReport : Report :=
  { type := "Fire", description := "smoke and flames", location := { lat := 10, lng := 20 } }

/-- `insertDesc` permutes: it only repositions the inserted element. -/
lemma insertDesc_perm {α : Type} (key : α → ℤ) (x : α) (l : List α) :
    List.Perm (insertDesc key x l) (x :: l) := by
  induction l with
  | nil => rfl
  | cons y ys ih =>
    simp only [insertDesc]
    split_ifs
    · exact (ih.cons y).trans (List.Perm.swap x y ys)
    · rfl

/-- `sortByDesc` permutes its input. -/
lemma sortByDesc_perm {α : Type} (key : α → ℤ) (l : List α) :
    List.Perm (sortByDesc key l) l := by
  induction l with
  | nil => rfl
  | cons x xs ih => exact (insertDesc_perm key x (sortByDesc key xs)).trans (ih.cons x)

/-- Inserting into a descending-sorted list keeps it descending-sorted. -/
lemma insertDesc_sorted {α : Type} (key : α → ℤ) (x : α) (l : List α)
    (h : l.Pairwise (fun a b => key b ≤ key a)) :
    (insertDesc key x l).Pairwise (fun a b => key b ≤ key a) := by
  induction l with
  | nil => simp [insertDesc]
  | cons y ys ih =>
    rcases List.pairwise_cons.mp h with ⟨hy, hys⟩
    simp only [insertDesc]
    split_ifs with hlt
    · refine List.pairwise_cons.mpr ⟨?_, ih hys⟩
      intro b hb
      rcases List.mem_cons.mp ((insertDesc_perm key x ys).mem_iff.mp hb) with hb | hb
      · exact hb ▸ le_of_lt hlt
      · exact hy b hb
    · refine List.pairwise_cons.mpr ⟨?_, h⟩
      intro b hb
      rcases List.mem_cons.mp hb with hb | hb
      · exact hb ▸ le_of_not_lt hlt
      · exact le_trans (hy b hb) (le_of_not_lt hlt)

/-- `sortByDesc` sorts by weakly descending key. -/
lemma sortByDesc_sorted {α : Type} (key : α → ℤ) (l : List α) :
    (sortByDesc key l).Pairwise (fun a b => key b ≤ key a) := by
  induction l with
  | nil => simp [sortByDesc]
  | cons x xs ih => exact insertDesc_sorted key x _ ih

/-- Sorting an already descending-sorted list changes nothing. -/
lemma sortByDesc_eq_of_sorted {α : Type} (key : α → ℤ) (l : List α)
    (h : l.Pairwise (fun a b => key b ≤ key a)) : sortByDesc key l = l := by
  induction l with
  | nil => rfl
  | cons x xs ih =>
    rcases List.pairwise_cons.mp h with ⟨hx, hxs⟩
    simp only [sortByDesc, ih hxs]
    cases xs with
    | nil => rfl
    | cons y ys =>
      simp only [insertDesc]
      rw [if_neg (not_lt.mpr (hx y (List.mem_cons_self y ys)))]

/-- How `insertDesc` interacts with filtering one key value: the inserted
element lands in front of the equal-keyed elements already present. -/
lemma insertDesc_filter_key {α : Type} (key : α → ℤ) (k : ℤ) (x : α) (l : List α) :
    (insertDesc key x l).filter (fun z => decide (key z = k)) =
      if key x = k then x :: l.filter (fun z => decide (key z = k))
      else l.filter (fun z => decide (key z = k)) := by
  induction l with
  | nil =>
    simp only [insertDesc, List.filter]
    split_ifs with h <;> simp [h]
  | cons y ys ih =>
    simp only [insertDesc]
    by_cases hlt : key x < key y
    · rw [if_pos hlt]
      by_cases hx : key x = k
      · have hy : ¬ key y = k := by omega
        simp only [List.filter_cons, hy, decide_eq_true_eq, if_false, ite_false, ih,
          if_pos hx, hx]
      · simp only [List.filter_cons, ih, if_neg hx]
    · rw [if_neg hlt]
      by_cases hx : key x = k
      · simp only [List.filter_cons, hx, if_pos hx]
        simp
      · simp only [List.filter_cons, if_neg hx]
        simp [hx]

/-- Stability of `sortByDesc`: the elements of any fixed key keep their
original relative order. -/
lemma sortByDesc_filter_key {α : Type} (key : α → ℤ) (k : ℤ) (l : List α) :
    (sortByDesc key l).filter (fun z => decide (key z = k)) =
      l.filter (fun z => decide (key z = k)) := by
  induction l with
  | nil => rfl
  | cons x xs ih =>
    simp only [sortByDesc, insertDesc_filter_key, ih]
    by_cases hx : key x = k
    · rw [if_pos hx]
      simp [List.filter_cons, hx]
    · rw [if_neg hx]
      simp [List.filter_cons, hx]

/-- The source's sequential type-bonus lookup agrees with the spec's
"Medical or Fire, Crime or Accident" grouping. -/
lemma typeChain_eq (t : String) :
    (if t = "Medical" then (10:ℚ) else if t = "Fire" then 10 else if t = "Crime" then 5
      else if t = "Accident" then 5 else 0) =
    (if t = "Medical" ∨ t = "Fire" then (10:ℚ)
      else if t = "Crime" ∨ t = "Accident" then 5 else 0) := by
  by_cases t1 : t = "Medical" <;> by_cases t2 : t = "Fire" <;>
    by_cases t3 : t = "Crime" <;> by_cases t4 : t = "Accident" <;> simp [t1, t2, t3, t4]

/-- A conditional increment equals adding a conditional term. -/
lemma verifiedChain_eq (c : Prop) [Decidable c] (a : ℚ) :
    (if c then a + 15 else a) = a + (if c then 15 else 0) := by
  split_ifs <;> ring

/-- The sequential status penalty equals adding a status-adjustment term. -/
lemma statusChain_eq (s : String) (x : ℚ) :
    (if s = "In Progress" then x - 20 else if s = "Resolved" then x - 50 else x) =
    x + (if s = "In Progress" then -20 else if s = "Resolved" then -50 else 0) := by
  split_ifs <;> ring

/-- The spec's worked example evaluates to priority 151. -/
lemma examplePriority_eval :
    calculatePriority (fun _ _ => 0) 1500000 exampleIncident none = 151 := by
  simp [calculatePriority, exampleIncident]
  norm_num [round_eq]

/-- C1: `calculatePriority` equals the spec's clamp-of-rounded-sum formula for
every incident, responder option, distance function and evaluation time;
`getPriorityLevel` maps scores to labels exactly by the thresholds
120 / 90 / 60; and the spec's worked example (25 minutes old at `now`,
no responder coordinate) evaluates to 151, labelled CRITICAL. -/
theorem calculatePriority_matches_spec :
    (∀ (dist : Location → Location → ℚ) (now : ℤ) (incident : Incident)
        (resp : Option Location),
      calculatePriority dist now incident resp = priorityFormula dist now incident resp) ∧
    (∀ s : ℤ,
      (getPriorityLevel s = "CRITICAL" ↔ 120 ≤ s) ∧
      (getPriorityLevel s = "HIGH" ↔ 90 ≤ s ∧ s < 120) ∧
      (getPriorityLevel s = "MEDIUM" ↔ 60 ≤ s ∧ s < 90) ∧
      (getPriorityLevel s = "LOW" ↔ s < 60)) ∧
    calculatePriority (fun _ _ => 0) 1500000 exampleIncident none = 151 ∧
    getPriorityLevel 151 = "CRITICAL" := by
  refine ⟨?_, ?_, ?_, by simp [getPriorityLevel]⟩
  · intro dist now incident resp
    have h60 : ((now : ℚ) - (incident.timestamp : ℚ)) / (1000 * 60)
        = ((now : ℚ) - (incident.timestamp : ℚ)) / 60000 := by norm_num
    simp only [calculatePriority, priorityFormula, h60]
    refine congrArg (fun z : ℤ => max 0 (min 200 z)) (congrArg round ?_)
    rw [statusChain_eq, verifiedChain_eq, typeChain_eq]
    cases resp <;> ring
  · intro s
    simp only [getPriorityLevel]
    split_ifs <;> refine ⟨?_, ?_, ?_, ?_⟩ <;> simp <;> omega
  · exact examplePriority_eval

/-- C8: the haversine distance is exactly zero on identical coordinate pairs
and exactly symmetric in its two coordinate pairs, over exact reals. -/
theorem calculateDistance_identity_symmetry :
    (∀ lat lng : ℝ, calculateDistance lat lng lat lng = 0) ∧
    (∀ lat1 lng1 lat2 lng2 : ℝ,
      calculateDistance lat1 lng1 lat2 lng2 = calculateDistance lat2 lng2 lat1 lng1) := by
  constructor
  · intro lat lng
    simp only [calculateDistance, sub_self, zero_mul, zero_div, Real.sin_zero,
      mul_zero, add_zero, zero_add, Real.sqrt_zero, sub_zero, Real.sqrt_one]
    simp [atan2]
  · intro lat1 lng1 lat2 lng2
    simp only [calculateDistance]
    have hsin : ∀ u v : ℝ, Real.sin ((u - v) * Real.pi / 180 / 2) *
        Real.sin ((u - v) * Real.pi / 180 / 2) =
        Real.sin ((v - u) * Real.pi / 180 / 2) * Real.sin ((v - u) * Real.pi / 180 / 2) := by
      intro u v
      have h : (u - v) * Real.pi / 180 / 2 = -((v - u) * Real.pi / 180 / 2) := by ring
      rw [h, Real.sin_neg]
      ring
    rw [hsin lat2 lat1, hsin lng2 lng1, mul_comm (Real.cos (lat1 * Real.pi / 180))]

/-- `find?` over a `filter` is `find?` with the conjoined predicate. -/
lemma find?_filter_eq {α : Type} (p q : α → Bool) (l : List α) :
    (l.filter p).find? q = l.find? (fun x => p x && q x) := by
  induction l with
  | nil => rfl
  | cons x xs ih =>
    by_cases hp : p x = true
    · by_cases hq : q x = true
      · simp [List.filter_cons, hp, List.find?, hq]
      · simp [List.filter_cons, hp, List.find?, hq, ih]
    · simp only [Bool.not_eq_true] at hp
      simp [List.filter_cons, hp, List.find?, ih]

/-- A successful `find?` splits the list at the first satisfying element. -/
lemma find?_eq_some_decomp {α : Type} (p : α → Bool) (l : List α) (m : α)
    (h : l.find? p = some m) :
    ∃ l1 l2, l = l1 ++ m :: l2 ∧ (∀ x ∈ l1, p x = false) ∧ p m = true := by
  induction l with
  | nil => simp [List.find?] at h
  | cons x xs ih =>
    by_cases hp : p x = true
    · rw [List.find?_cons_of_pos _ hp] at h
      obtain rfl : x = m := by injection h
      exact ⟨[], xs, rfl, by simp, hp⟩
    · simp only [Bool.not_eq_true] at hp
      rw [List.find?_cons_of_neg _ (by simp [hp])] at h
      obtain ⟨l1, l2, rfl, h1, h2⟩ := ih h
      refine ⟨x :: l1, l2, rfl, ?_, h2⟩
      intro y hy
      rcases List.mem_cons.mp hy with rfl | hy
      · exact hp
      · exact h1 y hy

/-- `incrementFirst` on a list split at its first satisfying element bumps
exactly that element. -/
lemma incrementFirst_append (p : Incident → Bool) (l1 : List Incident)
    (m : Incident) (l2 : List Incident)
    (h1 : ∀ x ∈ l1, p x = false) (hm : p m = true) :
    incrementFirst p (l1 ++ m :: l2) =
      l1 ++ ({ m with upvotes := m.upvotes + 1 }) :: l2 := by
  induction l1 with
  | nil => simp [incrementFirst, hm]
  | cons x xs ih =>
    have hx := h1 x (List.mem_cons_self x xs)
    simp only [List.cons_append, incrementFirst, hx]
    simp only [Bool.false_eq_true, if_false, List.append_eq, List.cons_append]
    rw [ih (fun y hy => h1 y (List.mem_cons_of_mem x hy))]

/-- Shared shape of a merged request: the store splits at the first
tight-match document, the outcome is `merged`, and the new store bumps
exactly that document's upvote count. -/
lemma processReport_merged_decomp (dist : Location → Location → ℚ) (now : ℤ)
    (db : List Incident) (r : Report) (sev : String) (fid : ℕ) (m : Incident)
    (h : (tightCandidates now db r.type).find?
      (fun inc => decide (dist r.location inc.location ≤ 100)) = some m) :
    ∃ l1 l2, db = l1 ++ m :: l2 ∧
      (∀ x ∈ l1, tightMatchPred dist now r.type r.location x = false) ∧
      tightMatchPred dist now r.type r.location m = true ∧
      (processReport dist now db r sev fid).outcome = "merged" ∧
      (processReport dist now db r sev fid).db =
        l1 ++ ({ m with upvotes := m.upvotes + 1 }) :: l2 ∧
      (processReport dist now db r sev fid).incident =
        some { m with upvotes := m.upvotes + 1 } := by
  have hfind : db.find? (tightMatchPred dist now r.type r.location) = some m := by
    have := find?_filter_eq
      (fun inc => decide (inc.type = r.type) &&
        decide (now - 30 * 60 * 1000 ≤ inc.timestamp))
      (fun inc => decide (dist r.location inc.location ≤ 100)) db
    rw [tightCandidates] at h
    rw [show tightMatchPred dist now r.type r.location = fun inc =>
      (decide (inc.type = r.type) && decide (now - 30 * 60 * 1000 ≤ inc.timestamp)) &&
        decide (dist r.location inc.location ≤ 100) from rfl]
    rw [← this, h]
  obtain ⟨l1, l2, hdb, h1, h2⟩ :=
    find?_eq_some_decomp (tightMatchPred dist now r.type r.location) db m hfind
  refine ⟨l1, l2, hdb, h1, h2, ?_, ?_, ?_⟩
  · simp only [processReport, h]
  · simp only [processReport, h]
    rw [hdb, incrementFirst_append _ l1 m l2 h1 h2]
  · simp only [processReport, h]

/-- C2: processing a report against the same-category last-30-minutes
candidates merges into the first candidate within 100 meters (incrementing
its corroboration count, creating nothing, answering `merged`), and when no
candidate is within 100 meters it appends exactly one new record with
corroboration count 1 and status `Reported`, answering `created`. -/
theorem mergeDecision_spec :
    ∀ (dist : Location → Location → ℚ) (now : ℤ) (db : List Incident)
      (r : Report) (sev : String) (fid : ℕ),
      (∀ m, (tightCandidates now db r.type).find?
          (fun inc => decide (dist r.location inc.location ≤ 100)) = some m →
        (processReport dist now db r sev fid).outcome = "merged" ∧
        (processReport dist now db r sev fid).db.length = db.length ∧
        (processReport dist now db r sev fid).incident =
          some { m with upvotes := m.upvotes + 1 }) ∧
      ((∀ inc ∈ tightCandidates now db r.type, ¬ dist r.location inc.location ≤ 100) →
        (processReport dist now db r sev fid).outcome = "created" ∧
        (processReport dist now db r sev fid).db =
          db ++ [newIncidentRecord r sev now fid] ∧
        (newIncidentRecord r sev now fid).upvotes = 1 ∧
        (newIncidentRecord r sev now fid).status = "Reported") := by
  intro dist now db r sev fid
  constructor
  · intro m hm
    obtain ⟨l1, l2, hdb, _, _, hout, hdb', hinc⟩ :=
      processReport_merged_decomp dist now db r sev fid m hm
    refine ⟨hout, ?_, hinc⟩
    rw [hdb', hdb]
    simp
  · intro hnone
    have hfind : (tightCandidates now db r.type).find?
        (fun inc => decide (dist r.location inc.location ≤ 100)) = none := by
      rw [List.find?_eq_none]
      intro x hx
      simp [hnone x hx]
    simp [processReport, hfind, newIncidentRecord]

/-- Witness for C2 at distance 80 m (merge) and 150 m (create). -/
theorem mergeDecision_spec_witness :
    (processReport (fun _ _ => 80) 0 [fireIncident] fireReport "High" 99).outcome =
      "merged" ∧
    (processReport (fun _ _ => 80) 0 [fireIncident] fireReport "High" 99).incident =
      some { fireIncident with upvotes := fireIncident.upvotes + 1 } ∧
    (processReport (fun _ _ => 150) 0 [fireIncident] fireReport "High" 99).outcome =
      "created" := by
  have hmerge :=
    (mergeDecision_spec (fun _ _ => 80) 0 [fireIncident] fireReport "High" 99).1
      fireIncident (by decide)
  have hcreate :=
    (mergeDecision_spec (fun _ _ => 150) 0 [fireIncident] fireReport "High" 99).2
      (by decide)
  exact ⟨hmerge.1, hmerge.2.2, hcreate.1⟩

/-- C7: a merged request splits the store around one document; the updated
store is identical outside that position, and the updated document agrees
with the old one on every field except the upvote count, which grows by
exactly 1. -/
theorem merge_preserves_other_fields :
    ∀ (dist : Location → Location → ℚ) (now : ℤ) (db : List Incident)
      (r : Report) (sev : String) (fid : ℕ),
      (processReport dist now db r sev fid).outcome = "merged" →
      ∃ l1 m m' l2, db = l1 ++ m :: l2 ∧
        (processReport dist now db r sev fid).db = l1 ++ m' :: l2 ∧
        m'.upvotes = m.upvotes + 1 ∧
        m'.id = m.id ∧ m'.type = m.type ∧ m'.description = m.description ∧
        m'.location = m.location ∧ m'.severity = m.severity ∧
        m'.status = m.status ∧ m'.verified = m.verified ∧
        m'.timestamp = m.timestamp := by
  intro dist now db r sev fid hmerged
  cases hfind : (tightCandidates now db r.type).find?
      (fun inc => decide (dist r.location inc.location ≤ 100)) with
  | none =>
    exfalso
    simp only [processReport, hfind] at hmerged
    exact absurd hmerged (by decide)
  | some m =>
    obtain ⟨l1, l2, hdb, _, _, _, hdb', _⟩ :=
      processReport_merged_decomp dist now db r sev fid m hfind
    exact ⟨l1, m, { m with upvotes := m.upvotes + 1 }, l2, hdb, hdb',
      rfl, rfl, rfl, rfl, rfl, rfl, rfl, rfl, rfl⟩

/-- Witness for C7 on the concrete 80 m merge. -/
theorem merge_preserves_other_fields_witness :
    ∃ l1 m m' l2, [fireIncident] = l1 ++ m :: l2 ∧
      (processReport (fun _ _ => 80) 0 [fireIncident] fireReport "High" 99).db =
        l1 ++ m' :: l2 ∧
      m'.upvotes = m.upvotes + 1 ∧
      m'.id = m.id ∧ m'.type = m.type ∧ m'.description = m.description ∧
      m'.location = m.location ∧ m'.severity = m.severity ∧
      m'.status = m.status ∧ m'.verified = m.verified ∧
      m'.timestamp = m.timestamp :=
  merge_preserves_other_fields (fun _ _ => 80) 0 [fireIncident] fireReport "High" 99
    (by decide)

/-- C10: the tight-tier candidate query does not filter by lifecycle status:
any same-category incident of the last 30 minutes within 100 meters — even
one with status Resolved or Closed — makes the request merge (no new record),
and when that terminal incident is the scanned first match it is the one
whose corroboration count grows. -/
theorem tightTier_ignores_terminal_status :
    ∀ (dist : Location → Location → ℚ) (now : ℤ) (db : List Incident)
      (r : Report) (sev : String) (fid : ℕ) (inc : Incident),
      inc ∈ db →
      (inc.status = "Resolved" ∨ inc.status = "Closed") →
      inc.type = r.type →
      now - 30 * 60 * 1000 ≤ inc.timestamp →
      dist r.location inc.location ≤ 100 →
      (processReport dist now db r sev fid).outcome = "merged" ∧
      (processReport dist now db r sev fid).db.length = db.length ∧
      (db.find? (tightMatchPred dist now r.type r.location) = some inc →
        (processReport dist now db r sev fid).incident =
          some { inc with upvotes := inc.upvotes + 1 }) := by
  intro dist now db r sev fid inc hmem hterm htype htime hdist
  have hpred : tightMatchPred dist now r.type r.location inc = true := by
    simp only [tightMatchPred, Bool.and_eq_true, decide_eq_true_eq]
    exact ⟨⟨htype, htime⟩, hdist⟩
  have heq : (fun x => (decide (x.type = r.type) &&
      decide (now - 30 * 60 * 1000 ≤ x.timestamp)) &&
      decide (dist r.location x.location ≤ 100)) =
      tightMatchPred dist now r.type r.location := rfl
  have hsome : ((tightCandidates now db r.type).find?
      (fun i => decide (dist r.location i.location ≤ 100))).isSome := by
    rw [tightCandidates, find?_filter_eq, heq]
    exact List.find?_isSome.mpr ⟨inc, hmem, hpred⟩
  obtain ⟨m, hm⟩ := Option.isSome_iff_exists.mp hsome
  have hfinddb : db.find? (tightMatchPred dist now r.type r.location) = some m := by
    rw [← heq, ← find?_filter_eq]
    exact hm
  obtain ⟨l1, l2, hdb, _, _, hout, hdb', hinc⟩ :=
    processReport_merged_decomp dist now db r sev fid m hm
  refine ⟨hout, ?_, ?_⟩
  · rw [hdb', hdb]
    simp
  · intro hfi
    have : m = inc := by
      rw [hfinddb] at hfi
      injection hfi
    rw [hinc, this]

/-- Witness for C10: a Resolved same-category incident 80 m away is merged
into, and its corroboration count grows from 2 to 3. -/
theorem tightTier_ignores_terminal_status_witness :
    (processReport (fun _ _ => 80) 0 [resolvedIncident] fireReport "High" 99).outcome =
      "merged" ∧
    (processReport (fun _ _ => 80) 0 [resolvedIncident] fireReport "High" 99).db.length =
      1 ∧
    (processReport (fun _ _ => 80) 0 [resolvedIncident] fireReport "High" 99).incident =
      some { resolvedIncident with upvotes := resolvedIncident.upvotes + 1 } := by
  have h := tightTier_ignores_terminal_status (fun _ _ => 80) 0 [resolvedIncident]
    fireReport "High" 99 resolvedIncident (by decide) (Or.inl (by decide))
    (by decide) (by decide) (by decide)
  exact ⟨h.1, h.2.1, h.2.2 (by decide)⟩

/-- The heuristic duplicate list is sorted by weakly descending confidence. -/
lemma heuristicDuplicates_sorted (dist : Location → Location → ℚ) (now : ℤ)
    (db : List Incident) (qtype : String) (qloc : Location) :
    (heuristicDuplicates dist now db qtype qloc).Pairwise
      (fun a b => b.confidence ≤ a.confidence) :=
  sortByDesc_sorted _ _

/-- C3: every loose-window candidate's heuristic confidence is exactly the
claim's clamped rounded formula; the returned list holds exactly the
candidates whose confidence exceeds 40; and it is ordered by descending
confidence. -/
theorem heuristicConfidence_spec :
    ∀ (dist : Location → Location → ℚ) (now : ℤ) (db : List Incident)
      (qtype : String) (qloc : Location),
      (∀ inc : Incident,
        (mkDupEntry dist now qtype qloc inc).confidence =
          max 0 (min 100 (round ((max 0 (100 - dist qloc inc.location / 5) +
            max 0 (100 - ((now : ℚ) - (inc.timestamp : ℚ)) / 72000) +
            (if inc.type = qtype then 20 else 0)) / 2.2)))) ∧
      List.Perm (heuristicDuplicates dist now db qtype qloc)
        (((looseWindow dist now qloc db).map (mkDupEntry dist now qtype qloc)).filter
          (fun e => decide (40 < e.confidence))) ∧
      List.Pairwise (fun a b => b.confidence ≤ a.confidence)
        (heuristicDuplicates dist now db qtype qloc) := by
  intro dist now db qtype qloc
  refine ⟨?_, sortByDesc_perm _ _, heuristicDuplicates_sorted dist now db qtype qloc⟩
  intro inc
  have h72 : ((2 : ℚ) * 60 * 60 * 10) = 72000 := by norm_num
  have harg : (0:ℚ) ≤ (max 0 (100 - dist qloc inc.location / 5) +
      max 0 (100 - ((now : ℚ) - (inc.timestamp : ℚ)) / 72000) +
      (if inc.type = qtype then 20 else 0)) / 2.2 := by
    have h1 : (0:ℚ) ≤ max 0 (100 - dist qloc inc.location / 5) := le_max_left 0 _
    have h2 : (0:ℚ) ≤ max 0 (100 - ((now : ℚ) - (inc.timestamp : ℚ)) / 72000) :=
      le_max_left 0 _
    have h3 : (0:ℚ) ≤ (if inc.type = qtype then (20:ℚ) else 0) := by
      split_ifs <;> norm_num
    have h22 : (0:ℚ) < 2.2 := by norm_num
    exact div_nonneg (by linarith) (le_of_lt h22)
  have hr : (0:ℤ) ≤ round ((max 0 (100 - dist qloc inc.location / 5) +
      max 0 (100 - ((now : ℚ) - (inc.timestamp : ℚ)) / 72000) +
      (if inc.type = qtype then 20 else 0)) / 2.2) := by
    rw [round_eq]
    exact Int.floor_nonneg.mpr (by linarith)
  have hmin : (0:ℤ) ≤ min 100 (round ((max 0 (100 - dist qloc inc.location / 5) +
      max 0 (100 - ((now : ℚ) - (inc.timestamp : ℚ)) / 72000) +
      (if inc.type = qtype then 20 else 0)) / 2.2)) :=
    le_min (by norm_num) hr
  rw [max_eq_right hmin]
  simp only [mkDupEntry, h72]

/-- The confidence of the cross-category example entry evaluates to 91. -/
lemma crossCategoryEntry_confidence :
    (mkDupEntry (fun _ _ => 0) 0 "Medical" { lat := 10, lng := 20 }
      fireIncident).confidence = 91 := by
  simp [mkDupEntry, fireIncident]
  norm_num [round_eq]

/-- The Medical duplicate check over a store holding one fresh Fire incident
at the query point returns exactly that incident's entry. -/
lemma crossCategoryExample :
    checkDuplicatesRoute (fun _ _ => 0) 0 [fireIncident] "Medical"
      { lat := 10, lng := 20 } "" [] =
      [mkDupEntry (fun _ _ => 0) 0 "Medical" { lat := 10, lng := 20 } fireIncident] := by
  have hwin : looseWindow (fun _ _ => 0) 0 { lat := 10, lng := 20 } [fireIncident] =
      [fireIncident] := by decide
  have hdups : heuristicDuplicates (fun _ _ => 0) 0 [fireIncident] "Medical"
      { lat := 10, lng := 20 } =
      [mkDupEntry (fun _ _ => 0) 0 "Medical" { lat := 10, lng := 20 } fireIncident] := by
    rw [heuristicDuplicates, hwin]
    simp only [List.map_cons, List.map_nil, List.filter_cons, List.filter_nil,
      crossCategoryEntry_confidence]
    norm_num [sortByDesc, insertDesc]
  simp only [checkDuplicatesRoute, hdups]
  rw [if_neg (by simp)]

/-- C4 counterexample: with a Fire incident 0 m away and 0 minutes old, a
Medical duplicate check returns that cross-category incident in its warning
list (heuristic confidence 91 without any type bonus). -/
theorem looseTier_crossCategory_counterexample :
    fireIncident.type ≠ "Medical" ∧
    (checkDuplicatesRoute (fun _ _ => 0) 0 [fireIncident] "Medical"
        { lat := 10, lng := 20 } "" []).map (fun e => e.incident) = [fireIncident] := by
  constructor
  · decide
  · rw [crossCategoryExample]
    rfl

/-- C4 (amended): the loose-tier window keeps exactly the incidents of the
last two hours, non-terminal status, within 500 meters — with no category
restriction — and a different-category incident can therefore appear among
the returned duplicate warnings. -/
theorem looseTier_window_spec :
    (∀ (dist : Location → Location → ℚ) (now : ℤ) (qloc : Location)
        (db : List Incident) (inc : Incident),
      inc ∈ looseWindow dist now qloc db ↔
        inc ∈ db ∧ now - 2 * 60 * 60 * 1000 ≤ inc.timestamp ∧
        inc.status ≠ "Resolved" ∧ inc.status ≠ "Closed" ∧
        dist qloc inc.location ≤ 500) ∧
    (∃ e ∈ checkDuplicatesRoute (fun _ _ => 0) 0 [fireIncident] "Medical"
        { lat := 10, lng := 20 } "" [], e.incident.type ≠ "Medical") := by
  constructor
  · intro dist now qloc db inc
    simp only [looseWindow, List.mem_filter, Bool.and_eq_true, decide_eq_true_eq,
      Bool.not_eq_true', decide_eq_false_iff_not]
    tauto
  · refine ⟨mkDupEntry (fun _ _ => 0) 0 "Medical" { lat := 10, lng := 20 } fireIncident,
      ?_, ?_⟩
    · rw [crossCategoryExample]
      exact List.mem_singleton_self _
    · decide

/-- C5: with a failed oracle (`detectDuplicates` returned `[]`), the
check-duplicates response equals the heuristic-only list, unchanged in
content and order; and the report pipeline's outcome, store, response
incident and error are independent of whatever the oracle returned, so an
oracle failure can never block creation or merging. -/
theorem oracleFailure_keeps_heuristic :
    (∀ (dist : Location → Location → ℚ) (now : ℤ) (db : List Incident)
        (qtype : String) (qloc : Location) (description : String),
      checkDuplicatesRoute dist now db qtype qloc description [] =
        heuristicDuplicates dist now db qtype qloc) ∧
    (∀ (dist : Location → Location → ℚ) (now : ℤ) (db : List Incident)
        (raw : RawReport) (sev : String) (fid : ℕ) (o1 o2 : List AiDup),
      (reportRoute dist now db raw sev fid o1).outcome =
        (reportRoute dist now db raw sev fid o2).outcome ∧
      (reportRoute dist now db raw sev fid o1).db =
        (reportRoute dist now db raw sev fid o2).db ∧
      (reportRoute dist now db raw sev fid o1).incident =
        (reportRoute dist now db raw sev fid o2).incident ∧
      (reportRoute dist now db raw sev fid o1).error =
        (reportRoute dist now db raw sev fid o2).error) := by
  constructor
  · intro dist now db qtype qloc description
    simp only [checkDuplicatesRoute]
    split_ifs with h
    · have hmap : (heuristicDuplicates dist now db qtype qloc).map (fuseOne []) =
          heuristicDuplicates dist now db qtype qloc :=
        (List.map_congr_left (fun d _ => rfl)).trans
          (List.map_id (heuristicDuplicates dist now db qtype qloc))
      rw [hmap]
      exact sortByDesc_eq_of_sorted _ _ (heuristicDuplicates_sorted dist now db qtype qloc)
    · rfl
  · intro dist now db raw sev fid o1 o2
    simp only [reportRoute]
    split_ifs <;> simp

/-- C6: every priority-queue entry is a non-terminal incident drawn
unchanged from the store, carrying exactly its computed priority and label;
the queue is ordered by weakly descending priority; it never exceeds the
requested cap; and equal-priority entries keep the original retrieval order
(stability of the sort). -/
theorem priorityQueue_spec :
    ∀ (dist : Location → Location → ℚ) (now : ℤ) (db : List Incident)
      (resp : Option Location) (lim : ℕ),
      (∀ e ∈ priorityQueue dist now db resp lim,
        e.incident.status ≠ "Resolved" ∧ e.incident.status ≠ "Closed" ∧
        e.incident ∈ db ∧
        e.priority = calculatePriority dist now e.incident resp ∧
        e.priorityLevel = getPriorityLevel e.priority) ∧
      List.Pairwise (fun a b => b.priority ≤ a.priority)
        (priorityQueue dist now db resp lim) ∧
      (priorityQueue dist now db resp lim).length ≤ lim ∧
      (∀ k : ℤ,
        (sortIncidentsByPriority dist now (activeIncidents db) resp).filter
          (fun p => decide (p.2 = k)) =
        ((activeIncidents db).map
          (fun inc => (inc, calculatePriority dist now inc resp))).filter
          (fun p => decide (p.2 = k))) := by
  intro dist now db resp lim
  refine ⟨?_, ?_, ?_, ?_⟩
  · intro e he
    simp only [priorityQueue, List.mem_map] at he
    obtain ⟨p, hp, rfl⟩ := he
    have hp' : p ∈ sortIncidentsByPriority dist now (activeIncidents db) resp :=
      List.mem_of_mem_take hp
    rw [sortIncidentsByPriority] at hp'
    have hp'' := (sortByDesc_perm (fun q : Incident × ℤ => q.2) _).mem_iff.mp hp'
    simp only [List.mem_map] at hp''
    obtain ⟨inc, hinc, rfl⟩ := hp''
    simp only [activeIncidents, List.mem_filter, Bool.and_eq_true, Bool.not_eq_true',
      decide_eq_false_iff_not] at hinc
    exact ⟨hinc.2.1, hinc.2.2, hinc.1, rfl, rfl⟩
  · simp only [priorityQueue]
    refine List.pairwise_map.mpr ?_
    exact (sortByDesc_sorted (fun q : Incident × ℤ => q.2) _).sublist
      (List.take_sublist _ _)
  · simp only [priorityQueue, List.length_map, List.length_take]
    exact min_le_left _ _
  · intro k
    rw [sortIncidentsByPriority]
    exact sortByDesc_filter_key (fun p : Incident × ℤ => p.2) k _

/-- Witness for C6 on a one-incident store: the single queue entry is the
unchanged incident with priority 151 and label CRITICAL. -/
theorem priorityQueue_spec_witness :
    ({ incident := exampleIncident, priority := 151, priorityLevel := "CRITICAL" } :
        QueueEntry).incident.status ≠ "Resolved" ∧
      ({ incident := exampleIncident, priority := 151, priorityLevel := "CRITICAL" } :
        QueueEntry).incident.status ≠ "Closed" ∧
      ({ incident := exampleIncident, priority := 151, priorityLevel := "CRITICAL" } :
        QueueEntry).incident ∈ [exampleIncident] ∧
      ({ incident := exampleIncident, priority := 151, priorityLevel := "CRITICAL" } :
        QueueEntry).priority =
        calculatePriority (fun _ _ => 0) 1500000
          ({ incident := exampleIncident, priority := 151, priorityLevel := "CRITICAL" } :
            QueueEntry).incident none ∧
      ({ incident := exampleIncident, priority := 151, priorityLevel := "CRITICAL" } :
        QueueEntry).priorityLevel =
        getPriorityLevel
          ({ incident := exampleIncident, priority := 151, priorityLevel := "CRITICAL" } :
            QueueEntry).priority := by
  have heval : priorityQueue (fun _ _ => 0) 1500000 [exampleIncident] none 1 =
      [{ incident := exampleIncident, priority := 151, priorityLevel := "CRITICAL" }] := by
    have hact : activeIncidents [exampleIncident] = [exampleIncident] := by decide
    simp only [priorityQueue, sortIncidentsByPriority, hact, List.map_cons, List.map_nil,
      examplePriority_eval, sortByDesc, insertDesc, List.take]
    decide
  exact (priorityQueue_spec (fun _ _ => 0) 1500000 [exampleIncident] none 1).1
    { incident := exampleIncident, priority := 151, priorityLevel := "CRITICAL" }
    (heval ▸ List.mem_singleton_self _)

/-- C9: a report whose latitude or longitude equals 0 is rejected by the
truthiness-based required-field check with the 400 "Missing required fields"
response: the store is unchanged and no matching, merge or creation happens. -/
theorem zeroCoordinate_rejected :
    ∀ (dist : Location → Location → ℚ) (now : ℤ) (db : List Incident)
      (raw : RawReport) (sev : String) (fid : ℕ) (oracle : List AiDup)
      (l : RawLocation),
      raw.location = some l → (l.lat = some 0 ∨ l.lng = some 0) →
      reportRoute dist now db raw sev fid oracle =
        { httpStatus := 400,
          error := some "Missing required fields: type, description, location (lat, lng)",
          outcome := none, db := db, incident := none, advisories := [] } := by
  intro dist now db raw sev fid oracle l hloc hzero
  have hreq : hasRequiredFields raw = false := by
    simp only [hasRequiredFields, hloc]
    rcases hzero with hz | hz <;> simp [truthyNum, hz]
  simp [reportRoute, hreq]

/-- Witness for C9: latitude 0 (a valid equator coordinate) is rejected. -/
theorem zeroCoordinate_rejected_witness :
    reportRoute (fun _ _ => 0) 0 []
      { type := some "Fire", description := some "smoke",
        location := some { lat := some 0, lng := some 77 } } "High" 1 [] =
      { httpStatus := 400,
        error := some "Missing required fields: type, description, location (lat, lng)",
        outcome := none, db := [], incident := none, advisories := [] } :=
  zeroCoordinate_rejected (fun _ _ => 0) 0 []
    { type := some "Fire", description := some "smoke",
      location := some { lat := some 0, lng := some 77 } } "High" 1 []
    { lat := some 0, lng := some 77 } rfl (Or.inl rfl)
